import Mathlib

/-!
Verification of the inode-based filesystem test harness (`src/wrappers.py`)
against its natural-language specification.

The Python module drives a fixed-size block arena through ctypes: a
`Superblock` (num_blocks, free_blocks as `c_uint32`), a per-block free list
(`c_uint8` markers), an inode table (`n_type : c_int`, `size : c_uint16`,
a 32-byte name, 12 `c_int` direct-block slots, `parent : c_int`) and a
data-block store (`size : c_size_t` plus a 1024-byte payload).  The ctypes
arena pointers (`inodes`, `data_blocks`, `free_list`) perform no bounds
checking, so they are embedded as total functions on `Int`; the fixed-size
ctypes arrays inside a record (`direct_blocks`, `block`) are bounds-checked
by ctypes and are embedded as Lean lists with explicit index checks.
Machine-integer truncation is kept explicit: `c_uint16` writes are reduced
mod 65536, the `c_uint32` decrement of `free_blocks` is taken mod 2^32 and
`c_uint8` byte stores mod 256.
-/

/-- One data block: byte count actually used plus the 1024-byte payload
buffer (`DataBlock` in wrappers.py). -/
structure DataBlock where
  size : Nat
  block : List Nat
deriving DecidableEq

/-- One inode record (`Inode` in wrappers.py): type tag (1 = file,
2 = directory, 3 = free), `c_uint16` size, fixed-width name, the 12
direct-block slots and the parent index. -/
structure Inode where
  n_type : Int
  size : Nat
  name : String
  direct_blocks : List Int
  parent : Int
deriving DecidableEq

/-- Volume metadata (`Superblock` in wrappers.py): total block count and
free block count, both `c_uint32`. -/
structure Superblock where
  num_blocks : Nat
  free_blocks : Nat
deriving DecidableEq

/-- The whole filesystem (`FileSystem` in wrappers.py).  The three arena
pointers are unchecked C pointers, hence total functions on `Int`: reading
at a negative or out-of-range index is a well-defined read of whatever the
surrounding memory holds in the modelled state. -/
structure FileSystem where
  s_block : Superblock
  free_list : Int → Nat
  inodes : Int → Inode
  data_blocks : Int → DataBlock
  root_node : Int

/-- Errors that abort an operation of the wrapper module.  `processExit`
is the bare `exit()` call on an oversized payload; `indexError` is a
Python `IndexError` raised by a bounds-checked ctypes array access. -/
inductive SdbErr where
  | processExit
  | indexError
deriving DecidableEq

/-- The byte-copy loop of `set_data_block` (wrappers.py lines 212-213):
`for i in range(data_size): fs.data_blocks[block_num].block[i] = data[i]`.
`rem` counts the remaining iterations, `i` is the current index.  Reading
past the end of `data` raises `IndexError` (second component `false`),
leaving the bytes copied so far in place; byte stores truncate to
`c_uint8` range. -/
def copyLoop (data : List Nat) (blk : List Nat) (i : Nat) : Nat → List Nat × Bool
  | 0 => (blk, true)
  | rem + 1 =>
    match data.get? i with
    | some v => copyLoop data (blk.set i (v % 256)) (i + 1) rem
    | none => (blk, false)

/-- The size-recomputation loop of `set_data_block` (wrappers.py lines
218-225): starting from `size = 0`, walk the owner's `direct_blocks` from
slot 0, adding the referenced data block's size (`c_uint16` accumulation,
mod 65536) until a slot holds the sentinel `-1`.  The loop has no index
bound of its own, so when all 12 slots are non-sentinel the ctypes array
access at index 12 raises `IndexError` (second component `false`), with
the accumulated sum already stored. -/
def sizeScan (slots : List Int) (db : Int → DataBlock) (acc : Nat) (i : Nat) :
    Nat → Nat × Bool
  | 0 => (acc, false)
  | rem + 1 =>
    if slots.getD i 0 = -1 then (acc, true)
    else sizeScan slots db ((acc + (db (slots.getD i 0)).size) % 65536) (i + 1) rem

/-- State after lines 210-213 of wrappers.py: the target block's size is
set to `data_size` and the payload bytes copied in (possibly partially,
when the copy loop raises). -/
def sdbBlockWritten (block_num : Int) (data : List Nat) (data_size : Nat)
    (fs : FileSystem) : FileSystem :=
  { fs with
      data_blocks :=
        Function.update fs.data_blocks block_num
          ⟨data_size, (copyLoop data (fs.data_blocks block_num).block 0 data_size).1⟩ }

/-- State after line 215 of wrappers.py: the owner inode's designated
direct-block slot now holds the target block index. -/
def sdbLinked (block_num : Int) (parent_inode : Int) (parent_block_num : Nat)
    (fs : FileSystem) : FileSystem :=
  { fs with
      inodes :=
        Function.update fs.inodes parent_inode
          { fs.inodes parent_inode with
              direct_blocks :=
                (fs.inodes parent_inode).direct_blocks.set parent_block_num block_num } }

/-- State after lines 218-225 of wrappers.py: the owner inode's size holds
whatever the recomputation loop accumulated. -/
def sdbSized (parent_inode : Int) (fs : FileSystem) : FileSystem :=
  { fs with
      inodes :=
        Function.update fs.inodes parent_inode
          { fs.inodes parent_inode with
              size :=
                (sizeScan (fs.inodes parent_inode).direct_blocks fs.data_blocks 0 0 12).1 } }

/-- State after lines 226-227 of wrappers.py: the free-list marker of the
target block is cleared and `free_blocks` decremented with `c_uint32`
wraparound. -/
def sdbFinal (block_num : Int) (fs : FileSystem) : FileSystem :=
  { fs with
      free_list := Function.update fs.free_list block_num 0
      s_block :=
        { fs.s_block with
            free_blocks := (4294967295 + fs.s_block.free_blocks) % 4294967296 } }

/-- The intermediate state of `set_data_block` after the payload write and
the owner-slot link (lines 210-215 of wrappers.py), from which the size
recomputation reads. -/
def sdbStage (block_num : Int) (data : List Nat) (data_size : Nat)
    (parent_inode : Int) (parent_block_num : Nat) (fs : FileSystem) : FileSystem :=
  sdbLinked block_num parent_inode parent_block_num
    (sdbBlockWritten block_num data data_size fs)

/-- `set_data_block(block_num, data, data_size, parent_inode,
parent_block_num, fs)` of wrappers.py (lines 207-229).  Returns the error
raised (if any) together with the state at the moment control leaves the
function, so partial mutation before an `IndexError` is observable.
Control flow, in source order: oversized payload calls `exit()` before
touching anything; then the target block's size is set and the payload
copied; then the owner's designated slot is linked; then the owner's size
is recomputed by `sizeScan` reading the mutated state; finally the
free-list marker is cleared and `free_blocks` decremented with `c_uint32`
wraparound. -/
def set_data_block (block_num : Int) (data : List Nat) (data_size : Nat)
    (parent_inode : Int) (parent_block_num : Nat) (fs : FileSystem) :
    Option SdbErr × FileSystem :=
  if data_size > 1024 then (some .processExit, fs)
  else if (copyLoop data (fs.data_blocks block_num).block 0 data_size).2 = false then
    (some .indexError, sdbBlockWritten block_num data data_size fs)
  else if 12 ≤ parent_block_num then
    (some .indexError, sdbBlockWritten block_num data data_size fs)
  else if (sizeScan
      ((sdbStage block_num data data_size parent_inode parent_block_num fs).inodes
        parent_inode).direct_blocks
      (sdbStage block_num data data_size parent_inode parent_block_num fs).data_blocks
      0 0 12).2 = false then
    (some .indexError,
      sdbSized parent_inode
        (sdbStage block_num data data_size parent_inode parent_block_num fs))
  else
    (none,
      sdbFinal block_num
        (sdbSized parent_inode
          (sdbStage block_num data data_size parent_inode parent_block_num fs)))

/-- C1: a call to `set_data_block` whose `data_size` exceeds the 1024-byte
block capacity aborts (via `exit()`) before any state mutation: the
returned state — Superblock, FreeList, every inode and every data block —
is exactly the input state. -/
theorem set_data_block_oversized_no_mutation (block_num : Int) (data : List Nat)
    (data_size : Nat) (parent_inode : Int) (parent_block_num : Nat)
    (fs : FileSystem) (h : data_size > 1024) :
    set_data_block block_num data data_size parent_inode parent_block_num fs =
      (some SdbErr.processExit, fs) := by
  simp [set_data_block, h]

/-- Concrete instance of C1: attaching a 2000-byte payload to block 5 of a
fresh-looking state aborts with the process-exit error and returns the
state unchanged. -/
theorem set_data_block_oversized_no_mutation_witness :
    2000 > 1024 ∧
      set_data_block 5 (List.replicate 2000 65) 2000 2 0
          { s_block := ⟨16, 16⟩
            free_list := fun _ => 1
            inodes := fun _ => ⟨3, 0, "", List.replicate 12 (-1), 0⟩
            data_blocks := fun _ => ⟨0, List.replicate 1024 0⟩
            root_node := 1 } =
        (some SdbErr.processExit,
          { s_block := ⟨16, 16⟩
            free_list := fun _ => 1
            inodes := fun _ => ⟨3, 0, "", List.replicate 12 (-1), 0⟩
            data_blocks := fun _ => ⟨0, List.replicate 1024 0⟩
            root_node := 1 }) :=
  ⟨by decide,
    set_data_block_oversized_no_mutation 5 (List.replicate 2000 65) 2000 2 0 _
      (by decide)⟩

/-- Modelled from the spec: volume creation (`fs_create`) lives in the
external C library `build/operations.so` and is not part of src/.  Spec
§4.1 prescribes a zero-initialized Superblock with `free_blocks =
num_blocks` and an all-free FreeList; §3 makes every inode-table entry
start `unallocated` (type tag 3) with all-sentinel pointers; scenario 1
of §8 places the root inode at index 1, type directory, parent 0.
Memory outside the arena bounds is modelled as the fixed placeholder
values of the corresponding function. -/
def fsCreate (n : Nat) : FileSystem where
  s_block := ⟨n, n⟩
  free_list := fun i => if 0 ≤ i ∧ i < (n : Int) then 1 else 0
  inodes := fun i =>
    if i = 1 then ⟨2, 0, "", List.replicate 12 (-1), 0⟩
    else ⟨3, 0, "", List.replicate 12 (-1), 0⟩
  data_blocks := fun _ => ⟨0, List.replicate 1024 0⟩
  root_node := 1

/-- Size list prescribed by the spec for a file inode: scan the direct
pointers from slot 0, stop at the first empty-slot sentinel, and collect
the sizes of the referenced data blocks. -/
def prefixSizes (db : Int → DataBlock) : List Int → List Nat
  | [] => []
  | s :: rest => if s = -1 then [] else (db s).size :: prefixSizes db rest

/-- The spec's size account for an inode: sum of `prefixSizes` over its
stored direct-pointer list. -/
def prefixSizeSum (fs : FileSystem) (ino : Int) : Nat :=
  (prefixSizes fs.data_blocks (fs.inodes ino).direct_blocks).sum

lemma getD_eq_get_of_lt : ∀ (l : List Int) (i : Nat) (h : i < l.length),
    l.getD i 0 = l.get ⟨i, h⟩
  | [], i, h => absurd h (Nat.not_lt_zero i)
  | _ :: _, 0, _ => rfl
  | _ :: l, i + 1, h => getD_eq_get_of_lt l i (Nat.lt_of_succ_lt_succ h)

lemma drop_eq_get_cons : ∀ (l : List Int) (i : Nat) (h : i < l.length),
    l.drop i = l.get ⟨i, h⟩ :: l.drop (i + 1)
  | _ :: _, 0, _ => rfl
  | _ :: l, i + 1, h => drop_eq_get_cons l i (Nat.lt_of_succ_lt_succ h)

/-- A successful run of the size-recomputation loop computes exactly the
spec's prefix sum: the `c_uint16` truncation never fires because at most
12 block sizes, each at most 1024, are accumulated. -/
lemma sizeScan_eq_prefixSizes (slots : List Int) (db : Int → DataBlock)
    (hlen : slots.length = 12) (hdb : ∀ s, (db s).size ≤ 1024) :
    ∀ (rem i acc : Nat), i + rem = 12 → acc ≤ 1024 * i →
      (sizeScan slots db acc i rem).2 = true →
      (sizeScan slots db acc i rem).1 = acc + (prefixSizes db (slots.drop i)).sum := by
  intro rem
  induction rem with
  | zero => intro i acc _ _ hok; simp [sizeScan] at hok
  | succ rem ih =>
    intro i acc hi hacc hok
    have hilt : i < slots.length := by omega
    have hgd : slots.getD i 0 = slots.get ⟨i, hilt⟩ := getD_eq_get_of_lt slots i hilt
    have hdrop := drop_eq_get_cons slots i hilt
    have hstep : sizeScan slots db acc i (rem + 1) =
        if slots.get ⟨i, hilt⟩ = -1 then (acc, true)
        else sizeScan slots db
          ((acc + (db (slots.get ⟨i, hilt⟩)).size) % 65536) (i + 1) rem := by
      rw [sizeScan, hgd]
    by_cases hs : slots.get ⟨i, hilt⟩ = -1
    · rw [hstep, if_pos hs, hdrop, prefixSizes, if_pos hs]
      simp
    · have hszb : (db (slots.get ⟨i, hilt⟩)).size ≤ 1024 := hdb _
      have hmod : (acc + (db (slots.get ⟨i, hilt⟩)).size) % 65536 =
          acc + (db (slots.get ⟨i, hilt⟩)).size := Nat.mod_eq_of_lt (by omega)
      rw [hstep, if_neg hs, hmod] at hok ⊢
      rw [ih (i + 1) (acc + (db (slots.get ⟨i, hilt⟩)).size) (by omega) (by omega) hok]
      rw [hdrop, prefixSizes, if_neg hs, List.sum_cons]
      omega

@[simp] lemma sdbBlockWritten_s_block (bn : Int) (data : List Nat) (ds : Nat)
    (fs : FileSystem) : (sdbBlockWritten bn data ds fs).s_block = fs.s_block := rfl

@[simp] lemma sdbBlockWritten_inodes (bn : Int) (data : List Nat) (ds : Nat)
    (fs : FileSystem) : (sdbBlockWritten bn data ds fs).inodes = fs.inodes := rfl

@[simp] lemma sdbBlockWritten_free_list (bn : Int) (data : List Nat) (ds : Nat)
    (fs : FileSystem) : (sdbBlockWritten bn data ds fs).free_list = fs.free_list := rfl

@[simp] lemma sdbBlockWritten_data_blocks (bn : Int) (data : List Nat) (ds : Nat)
    (fs : FileSystem) :
    (sdbBlockWritten bn data ds fs).data_blocks =
      Function.update fs.data_blocks bn
        ⟨ds, (copyLoop data (fs.data_blocks bn).block 0 ds).1⟩ := rfl

@[simp] lemma sdbLinked_s_block (bn pi : Int) (pbn : Nat) (fs : FileSystem) :
    (sdbLinked bn pi pbn fs).s_block = fs.s_block := rfl

@[simp] lemma sdbLinked_free_list (bn pi : Int) (pbn : Nat) (fs : FileSystem) :
    (sdbLinked bn pi pbn fs).free_list = fs.free_list := rfl

@[simp] lemma sdbLinked_data_blocks (bn pi : Int) (pbn : Nat) (fs : FileSystem) :
    (sdbLinked bn pi pbn fs).data_blocks = fs.data_blocks := rfl

@[simp] lemma sdbLinked_inodes (bn pi : Int) (pbn : Nat) (fs : FileSystem) :
    (sdbLinked bn pi pbn fs).inodes =
      Function.update fs.inodes pi
        { fs.inodes pi with
            direct_blocks := (fs.inodes pi).direct_blocks.set pbn bn } := rfl

@[simp] lemma sdbSized_s_block (pi : Int) (fs : FileSystem) :
    (sdbSized pi fs).s_block = fs.s_block := rfl

@[simp] lemma sdbSized_free_list (pi : Int) (fs : FileSystem) :
    (sdbSized pi fs).free_list = fs.free_list := rfl

@[simp] lemma sdbSized_data_blocks (pi : Int) (fs : FileSystem) :
    (sdbSized pi fs).data_blocks = fs.data_blocks := rfl

@[simp] lemma sdbSized_inodes (pi : Int) (fs : FileSystem) :
    (sdbSized pi fs).inodes =
      Function.update fs.inodes pi
        { fs.inodes pi with
            size :=
              (sizeScan (fs.inodes pi).direct_blocks fs.data_blocks 0 0 12).1 } := rfl

@[simp] lemma sdbFinal_num_blocks (bn : Int) (fs : FileSystem) :
    (sdbFinal bn fs).s_block.num_blocks = fs.s_block.num_blocks := rfl

@[simp] lemma sdbFinal_free_blocks (bn : Int) (fs : FileSystem) :
    (sdbFinal bn fs).s_block.free_blocks =
      (4294967295 + fs.s_block.free_blocks) % 4294967296 := rfl

@[simp] lemma sdbFinal_inodes (bn : Int) (fs : FileSystem) :
    (sdbFinal bn fs).inodes = fs.inodes := rfl

@[simp] lemma sdbFinal_data_blocks (bn : Int) (fs : FileSystem) :
    (sdbFinal bn fs).data_blocks = fs.data_blocks := rfl

@[simp] lemma sdbFinal_free_list (bn : Int) (fs : FileSystem) :
    (sdbFinal bn fs).free_list = Function.update fs.free_list bn 0 := rfl

@[simp] lemma sdbFinal_root_node (bn : Int) (fs : FileSystem) :
    (sdbFinal bn fs).root_node = fs.root_node := rfl

/-- Characterization of a successful `set_data_block` run: the guards that
must have passed and the explicit final state. -/
lemma set_data_block_ok_result (block_num : Int) (data : List Nat)
    (data_size : Nat) (parent_inode : Int) (parent_block_num : Nat)
    (fs : FileSystem)
    (h : (set_data_block block_num data data_size parent_inode parent_block_num
        fs).1 = none) :
    data_size ≤ 1024 ∧ parent_block_num < 12 ∧
      (copyLoop data (fs.data_blocks block_num).block 0 data_size).2 = true ∧
      (sizeScan
        ((sdbStage block_num data data_size parent_inode parent_block_num fs).inodes
          parent_inode).direct_blocks
        (sdbStage block_num data data_size parent_inode parent_block_num fs).data_blocks
        0 0 12).2 = true ∧
      (set_data_block block_num data data_size parent_inode parent_block_num fs).2 =
        sdbFinal block_num
          (sdbSized parent_inode
            (sdbStage block_num data data_size parent_inode parent_block_num fs)) := by
  simp only [set_data_block] at h ⊢
  by_cases h1 : data_size > 1024
  · rw [if_pos h1] at h
    simp at h
  · rw [if_neg h1] at h ⊢
    by_cases h2 : (copyLoop data (fs.data_blocks block_num).block 0 data_size).2 = false
    · rw [if_pos h2] at h
      simp at h
    · rw [if_neg h2] at h ⊢
      by_cases h3 : 12 ≤ parent_block_num
      · rw [if_pos h3] at h
        simp at h
      · rw [if_neg h3] at h ⊢
        by_cases h4 : (sizeScan
            ((sdbStage block_num data data_size parent_inode parent_block_num fs).inodes
              parent_inode).direct_blocks
            (sdbStage block_num data data_size parent_inode parent_block_num
              fs).data_blocks 0 0 12).2 = false
        · rw [if_pos h4] at h
          simp at h
        · rw [if_neg h4] at h ⊢
          exact ⟨by omega, by omega, by simpa using h2, by simpa using h4, rfl⟩

/-- C2: after every successful `set_data_block` call (so `data_size ≤
1024`), the owner inode's `size` field equals the sum of the size fields
of the data blocks referenced by the contiguous prefix of the owner's
direct-pointer slots, scanning from slot 0 and stopping at the first
empty-slot sentinel — stated under the ctypes layout invariant (12 slots)
and the data-model invariant that every block size is at most the
1024-byte capacity. -/
theorem set_data_block_size_is_prefix_sum (block_num : Int) (data : List Nat)
    (data_size : Nat) (parent_inode : Int) (parent_block_num : Nat)
    (fs : FileSystem)
    (hlen : (fs.inodes parent_inode).direct_blocks.length = 12)
    (hcap : ∀ b, (fs.data_blocks b).size ≤ 1024)
    (h : (set_data_block block_num data data_size parent_inode parent_block_num
        fs).1 = none) :
    ((set_data_block block_num data data_size parent_inode parent_block_num
        fs).2.inodes parent_inode).size =
      prefixSizeSum
        (set_data_block block_num data data_size parent_inode parent_block_num fs).2
        parent_inode := by
  obtain ⟨hds, hpbn, hcopy, hscan, hres⟩ :=
    set_data_block_ok_result block_num data data_size parent_inode parent_block_num fs h
  have hL : ((sdbStage block_num data data_size parent_inode parent_block_num fs).inodes
      parent_inode).direct_blocks.length = 12 := by
    simp [sdbStage, hlen]
  have hDB : ∀ s,
      (((sdbStage block_num data data_size parent_inode parent_block_num
        fs).data_blocks) s).size ≤ 1024 := by
    intro s
    simp only [sdbStage, sdbLinked_data_blocks, sdbBlockWritten_data_blocks]
    rcases eq_or_ne s block_num with rfl | hne
    · rw [Function.update_same]
      exact hds
    · rw [Function.update_noteq hne]
      exact hcap s
  have hmain := sizeScan_eq_prefixSizes
    ((sdbStage block_num data data_size parent_inode parent_block_num fs).inodes
      parent_inode).direct_blocks
    (sdbStage block_num data data_size parent_inode parent_block_num fs).data_blocks
    hL hDB 12 0 0 rfl (by omega) hscan
  rw [hres]
  simp only [prefixSizeSum, sdbFinal_inodes, sdbFinal_data_blocks, sdbSized_inodes,
    sdbSized_data_blocks, Function.update_same]
  rw [hmain]
  simp

/-- Concrete instance of C2: attaching the 2-byte payload `[104, 105]` to
block 5, owner inode 1, slot 0, of a fresh 16-block volume; the owner's
size then equals the prefix sum of its direct-pointer blocks. -/
theorem set_data_block_size_is_prefix_sum_witness :
    ((set_data_block 5 [104, 105] 2 1 0 (fsCreate 16)).2.inodes 1).size =
      prefixSizeSum (set_data_block 5 [104, 105] 2 1 0 (fsCreate 16)).2 1 :=
  set_data_block_size_is_prefix_sum 5 [104, 105] 2 1 0 (fsCreate 16)
    (by decide) (fun b => Nat.zero_le 1024) (by decide)

/-- The spec's free-marker count: the number of data-block indices in
`[0, n)` whose FreeList marker holds the "free" value 1. -/
def freeCount (fl : Int → Nat) : Nat → Nat
  | 0 => 0
  | n + 1 => freeCount fl n + (if fl n = 1 then 1 else 0)

/-- The spec's Superblock/FreeList invariant: `free_blocks` equals the
number of blocks marked free in the FreeList. -/
def freeInvariant (fs : FileSystem) : Prop :=
  fs.s_block.free_blocks = freeCount fs.free_list fs.s_block.num_blocks

instance (fs : FileSystem) : Decidable (freeInvariant fs) := by
  unfold freeInvariant
  exact Nat.decEq _ _

lemma freeCount_congr (fl fl' : Int → Nat) :
    ∀ n : Nat, (∀ k : Nat, k < n → fl k = fl' k) → freeCount fl n = freeCount fl' n := by
  intro n
  induction n with
  | zero => intro _; rfl
  | succ n ih =>
    intro hagree
    have h1 := ih (fun k hk => hagree k (Nat.lt_succ_of_lt hk))
    have h2 := hagree n (Nat.lt_succ_self n)
    simp [freeCount, h1, h2]

lemma freeCount_le (fl : Int → Nat) : ∀ n : Nat, freeCount fl n ≤ n := by
  intro n
  induction n with
  | zero => exact Nat.le_refl 0
  | succ n ih =>
    unfold freeCount
    split <;> omega

lemma freeCount_update_used (fl : Int → Nat) :
    ∀ (n bn : Nat), bn < n → fl bn = 1 →
      freeCount (Function.update fl bn 0) n + 1 = freeCount fl n := by
  intro n
  induction n with
  | zero => intro bn h; exact absurd h (Nat.not_lt_zero bn)
  | succ n ih =>
    intro bn hbn hfree
    rcases Nat.lt_succ_iff_lt_or_eq.mp hbn with hlt | heq
    · have hne : ((n : Int)) ≠ ((bn : Int)) := by
        intro hc
        exact absurd (by exact_mod_cast hc) (Nat.ne_of_gt hlt)
      have := ih bn hlt hfree
      unfold freeCount
      rw [Function.update_noteq hne]
      omega
    · subst heq
      have hsame : Function.update fl (bn : Int) 0 (bn : Int) = 0 :=
        Function.update_same _ _ _
      have hagree : freeCount (Function.update fl (bn : Int) 0) bn = freeCount fl bn := by
        refine freeCount_congr _ _ bn (fun k hk => ?_)
        have hne : ((k : Int)) ≠ ((bn : Int)) := by
          intro hc
          exact absurd (by exact_mod_cast hc) (Nat.ne_of_lt hk)
        exact Function.update_noteq hne _ _
      unfold freeCount
      rw [hsame, hagree, hfree]
      simp

/-- C3 (amended): the Superblock/FreeList invariant `free_blocks =
freeCount` is preserved by a successful `set_data_block` call whose
target block is in range and currently marked free; a second successful
attach to an already-used block instead decrements `free_blocks` without
changing the marker count and so breaks the invariant (see the
counterexample). -/
theorem set_data_block_preserves_free_invariant (block_num : Nat)
    (data : List Nat) (data_size : Nat) (parent_inode : Int)
    (parent_block_num : Nat) (fs : FileSystem)
    (hinv : freeInvariant fs)
    (hnb : fs.s_block.num_blocks < 4294967296)
    (hbn : block_num < fs.s_block.num_blocks)
    (hfree : fs.free_list block_num = 1)
    (h : (set_data_block block_num data data_size parent_inode parent_block_num
        fs).1 = none) :
    freeInvariant
      (set_data_block block_num data data_size parent_inode parent_block_num fs).2 := by
  obtain ⟨hds, hpbn, hcopy, hscan, hres⟩ :=
    set_data_block_ok_result block_num data data_size parent_inode parent_block_num fs h
  have hupd := freeCount_update_used fs.free_list fs.s_block.num_blocks block_num hbn hfree
  have hle := freeCount_le fs.free_list fs.s_block.num_blocks
  have hinv' : fs.s_block.free_blocks = freeCount fs.free_list fs.s_block.num_blocks := hinv
  unfold freeInvariant
  rw [hres]
  simp only [sdbStage, sdbFinal_free_blocks, sdbFinal_num_blocks, sdbFinal_free_list,
    sdbSized_s_block, sdbSized_free_list, sdbLinked_s_block, sdbLinked_free_list,
    sdbBlockWritten_s_block, sdbBlockWritten_free_list]
  omega

/-- Concrete instance of the amended C3: one successful attach of a
1-byte payload to the free block 3 of a fresh 4-block volume keeps
`free_blocks` equal to the free-marker count. -/
theorem set_data_block_preserves_free_invariant_witness :
    freeInvariant (set_data_block 3 [104] 1 1 0 (fsCreate 4)).2 :=
  set_data_block_preserves_free_invariant 3 [104] 1 1 0 (fsCreate 4)
    (by decide) (by decide) (by decide) (by decide) (by decide)

/-- Counterexample to C3 as stated: on a fresh 4-block volume the
invariant holds, it still holds after a first successful attach to block
2, but a second successful attach to the same (now used) block 2
decrements `free_blocks` again without changing the marker count, so
`free_blocks` no longer equals the number of free markers. -/
theorem free_invariant_broken_by_second_attach :
    (set_data_block 2 [104] 1 1 0 (fsCreate 4)).1 = none ∧
      (set_data_block 2 [104] 1 1 0
        (set_data_block 2 [104] 1 1 0 (fsCreate 4)).2).1 = none ∧
      freeInvariant (fsCreate 4) ∧
      freeInvariant (set_data_block 2 [104] 1 1 0 (fsCreate 4)).2 ∧
      ¬ freeInvariant
          (set_data_block 2 [104] 1 1 0
            (set_data_block 2 [104] 1 1 0 (fsCreate 4)).2).2 := by
  refine ⟨by decide, by decide, by decide, by decide, by decide⟩

/-- C4 (amended, decrement part): every successful `set_data_block` call
made while `free_blocks` is positive (and within `c_uint32` range)
decreases `free_blocks` by exactly 1.  At `free_blocks = 0` the unsigned
decrement instead wraps around to 4294967295 (see the counterexample). -/
theorem set_data_block_decrements_free_blocks (block_num : Int)
    (data : List Nat) (data_size : Nat) (parent_inode : Int)
    (parent_block_num : Nat) (fs : FileSystem)
    (hpos : 0 < fs.s_block.free_blocks)
    (hlt : fs.s_block.free_blocks < 4294967296)
    (h : (set_data_block block_num data data_size parent_inode parent_block_num
        fs).1 = none) :
    (set_data_block block_num data data_size parent_inode parent_block_num
        fs).2.s_block.free_blocks = fs.s_block.free_blocks - 1 := by
  obtain ⟨hds, hpbn, hcopy, hscan, hres⟩ :=
    set_data_block_ok_result block_num data data_size parent_inode parent_block_num fs h
  rw [hres]
  simp only [sdbStage, sdbFinal_free_blocks, sdbSized_s_block, sdbLinked_s_block,
    sdbBlockWritten_s_block]
  omega

/-- Concrete instance of the amended C4: attaching a 1-byte payload to
block 1 of a fresh 4-block volume lowers `free_blocks` from 4 to 3. -/
theorem set_data_block_decrements_free_blocks_witness :
    (set_data_block 1 [104] 1 1 0 (fsCreate 4)).2.s_block.free_blocks =
      (fsCreate 4).s_block.free_blocks - 1 :=
  set_data_block_decrements_free_blocks 1 [104] 1 1 0 (fsCreate 4)
    (by decide) (by decide) (by decide)

/-- Counterexample to C4 as stated: on a fresh 2-block volume, three
successive successful attaches to the same block 0 drive `free_blocks`
from 2 to 1 to 0 and then — the `c_uint32` subtraction wrapping — to
4294967295, which exceeds `num_blocks = 2`. -/
theorem free_blocks_exceeds_num_blocks_after_wrap :
    (set_data_block 0 [104] 1 1 0 (fsCreate 2)).1 = none ∧
      (set_data_block 0 [104] 1 1 0
        (set_data_block 0 [104] 1 1 0 (fsCreate 2)).2).1 = none ∧
      (set_data_block 0 [104] 1 1 0
        (set_data_block 0 [104] 1 1 0
          (set_data_block 0 [104] 1 1 0 (fsCreate 2)).2).2).1 = none ∧
      (set_data_block 0 [104] 1 1 0
        (set_data_block 0 [104] 1 1 0
          (set_data_block 0 [104] 1 1 0 (fsCreate 2)).2).2).2.s_block.free_blocks =
        4294967295 ∧
      (set_data_block 0 [104] 1 1 0
        (set_data_block 0 [104] 1 1 0
          (set_data_block 0 [104] 1 1 0 (fsCreate 2)).2).2).2.s_block.num_blocks = 2 := by
  refine ⟨by decide, by decide, by decide, by decide, by decide⟩

/-- The byte-copy loop writes only indices below `i + rem`: every entry at
or beyond that bound is untouched. -/
lemma copyLoop_get?_high (data : List Nat) :
    ∀ (rem i : Nat) (blk : List Nat) (j : Nat), i + rem ≤ j →
      ((copyLoop data blk i rem).1).get? j = blk.get? j := by
  intro rem
  induction rem with
  | zero => intro i blk j _; rfl
  | succ rem ih =>
    intro i blk j hj
    cases hd : data.get? i with
    | some v =>
      have hstep : copyLoop data blk i (rem + 1) =
          copyLoop data (blk.set i (v % 256)) (i + 1) rem := by
        rw [copyLoop, hd]
      rw [hstep, ih (i + 1) (blk.set i (v % 256)) j (by omega)]
      exact List.get?_set_ne _ _ (by omega)
    | none =>
      have hstep : copyLoop data blk i (rem + 1) = (blk, false) := by
        rw [copyLoop, hd]
      rw [hstep]

/-- C10: a successful `set_data_block` call modifies only the target data
block (size and first `data_size` bytes), the owner inode's designated
slot and size, the target's free-list entry and `free_blocks`: every
other inode, the owner's remaining attribute fields and other slots,
every other data block, the target's bytes at or beyond `data_size`,
every other free-list entry, and `num_blocks` are unchanged. -/
theorem set_data_block_frame (block_num : Int) (data : List Nat)
    (data_size : Nat) (parent_inode : Int) (parent_block_num : Nat)
    (fs : FileSystem)
    (h : (set_data_block block_num data data_size parent_inode parent_block_num
        fs).1 = none) :
    (set_data_block block_num data data_size parent_inode parent_block_num
        fs).2.s_block.num_blocks = fs.s_block.num_blocks ∧
      (∀ j : Int, j ≠ parent_inode →
        (set_data_block block_num data data_size parent_inode parent_block_num
          fs).2.inodes j = fs.inodes j) ∧
      ((set_data_block block_num data data_size parent_inode parent_block_num
        fs).2.inodes parent_inode).name = (fs.inodes parent_inode).name ∧
      ((set_data_block block_num data data_size parent_inode parent_block_num
        fs).2.inodes parent_inode).n_type = (fs.inodes parent_inode).n_type ∧
      ((set_data_block block_num data data_size parent_inode parent_block_num
        fs).2.inodes parent_inode).parent = (fs.inodes parent_inode).parent ∧
      (∀ k : Nat, k ≠ parent_block_num →
        ((set_data_block block_num data data_size parent_inode parent_block_num
          fs).2.inodes parent_inode).direct_blocks.get? k =
          (fs.inodes parent_inode).direct_blocks.get? k) ∧
      (∀ j : Int, j ≠ block_num →
        (set_data_block block_num data data_size parent_inode parent_block_num
          fs).2.data_blocks j = fs.data_blocks j) ∧
      (∀ i : Nat, data_size ≤ i →
        ((set_data_block block_num data data_size parent_inode parent_block_num
          fs).2.data_blocks block_num).block.get? i =
          (fs.data_blocks block_num).block.get? i) ∧
      (∀ j : Int, j ≠ block_num →
        (set_data_block block_num data data_size parent_inode parent_block_num
          fs).2.free_list j = fs.free_list j) := by
  obtain ⟨hds, hpbn, hcopy, hscan, hres⟩ :=
    set_data_block_ok_result block_num data data_size parent_inode parent_block_num fs h
  rw [hres]
  simp only [sdbStage, sdbFinal_num_blocks, sdbFinal_inodes, sdbFinal_data_blocks,
    sdbFinal_free_list, sdbSized_inodes, sdbSized_data_blocks, sdbSized_free_list,
    sdbSized_s_block, sdbLinked_inodes, sdbLinked_data_blocks, sdbLinked_free_list,
    sdbLinked_s_block, sdbBlockWritten_inodes, sdbBlockWritten_data_blocks,
    sdbBlockWritten_free_list, sdbBlockWritten_s_block, Function.update_same]
  refine ⟨trivial, ?_, trivial, trivial, trivial, ?_, ?_, ?_, ?_⟩
  · intro j hj
    rw [Function.update_noteq hj, Function.update_noteq hj]
  · intro k hk
    exact List.get?_set_ne _ _ (fun hc => hk hc.symm)
  · intro j hj
    rw [Function.update_noteq hj]
  · intro i hi
    exact copyLoop_get?_high data data_size 0 (fs.data_blocks block_num).block i
      (by omega)
  · intro j hj
    rw [Function.update_noteq hj]

/-- Concrete instance of C10: after attaching a 2-byte payload to block 5
(owner 1, slot 0) of a fresh 16-block volume, `num_blocks` is unchanged,
the unrelated inode 7 is unchanged, and the unrelated free-list entry 6
is unchanged. -/
theorem set_data_block_frame_witness :
    (set_data_block 5 [104, 105] 2 1 0 (fsCreate 16)).2.s_block.num_blocks =
        (fsCreate 16).s_block.num_blocks ∧
      (set_data_block 5 [104, 105] 2 1 0 (fsCreate 16)).2.inodes 7 =
        (fsCreate 16).inodes 7 ∧
      (set_data_block 5 [104, 105] 2 1 0 (fsCreate 16)).2.free_list 6 =
        (fsCreate 16).free_list 6 :=
  ⟨(set_data_block_frame 5 [104, 105] 2 1 0 (fsCreate 16) (by decide)).1,
    (set_data_block_frame 5 [104, 105] 2 1 0 (fsCreate 16) (by decide)).2.1 7
      (by decide),
    (set_data_block_frame 5 [104, 105] 2 1 0 (fsCreate 16)
      (by decide)).2.2.2.2.2.2.2.2 6 (by decide)⟩

/-- The in-memory expected-inode model of wrappers.py's `TInode` class:
the optionally pinned index, name, type tag, parent and the padded
12-entry block list. -/
structure TInode where
  idx : Option Int
  name : String
  n_type : Int
  parent : Int
  blocks : List Int
deriving DecidableEq

/-- Failure outcomes of `TInode.__init__` (wrappers.py lines 97-117), in
source order: the asserts on name length, parent range, parent type and
block-list length; the `idx > 0` left half of the assert on line 116;
and the `AttributeError` raised by its right half, which reads the
misspelled attribute `fs.s_block[0].num_block` (the Superblock field is
named `num_blocks`). -/
inductive InitErr where
  | nameLength
  | parentRange
  | parentType
  | blocksLength
  | idxNotPositive
  | attributeError
deriving DecidableEq

/-- `TInode.__init__(fs, name, n_type, parent, idx, blocks)` of
wrappers.py (lines 97-117); `mkdir` always calls it with `blocks` left at
its default, the module-level shared list `[0] * 12`.  The checks run in
source order.  The final `assert idx > 0 and idx < fs.s_block[0].num_block`
short-circuits: a non-positive `idx` fails the assert, and any positive
`idx` reaches the misspelled attribute and raises `AttributeError` — so
construction succeeds only when `idx` is `None`, in which case the `idx`
attribute is never assigned. -/
def TInode.init (fs : FileSystem) (name : String) (n_type : Int) (parent : Int)
    (idx : Option Int) (blocks : List Int) : Except InitErr TInode :=
  if name.length ≠ 32 then .error .nameLength
  else if ¬(0 < parent ∧ parent < (fs.s_block.num_blocks : Int)) then
    .error .parentRange
  else if (fs.inodes parent).n_type ≠ 2 then .error .parentType
  else if ¬(blocks.length ≤ 12) then .error .blocksLength
  else
    match idx with
    | none =>
      .ok ⟨none, name, n_type, parent,
        blocks ++ List.replicate (12 - blocks.length) (-1)⟩
    | some i => if ¬(0 < i) then .error .idxNotPositive else .error .attributeError

/-- `TInode.check(fs, idx, check_parents)` of wrappers.py (lines
144-172), as the Boolean success of its assertion chain, in source
order: an index must be available (the pinned one wins over the
argument); it must lie in `(0, num_blocks)`; the stored record's name,
type and parent must equal the model's; when `check_parents` is set, the
index must occur in its parent's direct blocks, and — iterating over all
12 slots, empty-slot sentinels included, so a `-1` slot is dereferenced
as inode index `-1` — every slot's referenced inode must name this index
as its parent; finally the stored direct blocks must equal the model's
list position by position. -/
def TInode.check (t : TInode) (fs : FileSystem) (idx : Option Int)
    ( check_parents : Bool) : Bool :=
  match t.idx.orElse (fun _ => idx) with
  | none => false
  | some e =>
    decide (0 < e) && decide (e < (fs.s_block.num_blocks : Int)) &&
    ((fs.inodes e).name == t.name) &&
    ((fs.inodes e).n_type == t.n_type) &&
    ((fs.inodes e).parent == t.parent) &&
    (! check_parents ||
      ((List.range 12).any
          (fun i => (fs.inodes ((fs.inodes e).parent)).direct_blocks.getD i 0 == e) &&
        (List.range 12).all
          (fun d => (fs.inodes ((fs.inodes e).direct_blocks.getD d 0)).parent == e))) &&
    (List.range 12).all
      (fun i => (fs.inodes e).direct_blocks.getD i 0 == t.blocks.getD i 0)

/-- Failure outcomes of `mkdir` (wrappers.py lines 175-200).
`initAssert` wraps a failure inside the `TInode` construction;
`parentRangeAssert` is the assert on line 182; `lookupError` is the
explicit LookupError when the parent has no free slot;
`idxAttributeError` is the `AttributeError` raised on line 195 reading
`inode.idx`, an attribute the constructor never assigned;
`parentSlotIndexError` is the ctypes bounds failure writing a
caller-supplied slot at index 12 or beyond. -/
inductive MkdirErr where
  | initAssert (e : InitErr)
  | parentRangeAssert
  | lookupError
  | idxAttributeError
  | parentSlotIndexError
deriving DecidableEq

/-- `mkdir(fs, name, idx, parent, parent_direct_block)` of wrappers.py
(lines 175-200): construct the model TInode with the caller-supplied
`idx`; resolve the parent slot (when none is supplied, assert the parent
range and take the first slot holding `-1`, raising LookupError if there
is none); then write the child's type, name and parent, link the parent
slot to `inode.idx`, and copy the model's block list into the child's
direct blocks.  Returns the error (if any), the state when control
leaves, and the constructed model on success.  Because the constructor
raises `AttributeError` for every supplied `idx` (the `num_block` typo),
every call fails in the first step, before any mutation. -/
def mkdir (fs : FileSystem) (name : String) (idx : Int) (parent : Int)
    (parent_direct_block : Option Nat) :
    Option MkdirErr × FileSystem × Option TInode :=
  match TInode.init fs name 2 parent (some idx) (List.replicate 12 0) with
  | .error e => (some (.initAssert e), fs, none)
  | .ok inode =>
    match (match parent_direct_block with
      | some p => Except.ok p
      | none =>
        if ¬(0 < parent ∧ parent < (fs.s_block.num_blocks : Int)) then
          Except.error MkdirErr.parentRangeAssert
        else
          match (List.range 12).find?
              (fun i => (fs.inodes parent).direct_blocks.getD i 0 == -1) with
          | some i => Except.ok i
          | none => Except.error MkdirErr.lookupError) with
    | .error e => (some e, fs, none)
    | .ok pdb =>
      let fs1 : FileSystem :=
        { fs with
            inodes :=
              Function.update fs.inodes idx
                { fs.inodes idx with
                    n_type := inode.n_type
                    name := inode.name
                    parent := parent } }
      match inode.idx with
      | none => (some .idxAttributeError, fs1, none)
      | some iv =>
        if 12 ≤ pdb then (some .parentSlotIndexError, fs1, none)
        else
          let fs2 : FileSystem :=
            { fs1 with
                inodes :=
                  Function.update fs1.inodes parent
                    { fs1.inodes parent with
                        direct_blocks :=
                          (fs1.inodes parent).direct_blocks.set pdb iv } }
          let fs3 : FileSystem :=
            { fs2 with
                inodes :=
                  Function.update fs2.inodes idx
                    { fs2.inodes idx with
                        direct_blocks :=
                          (List.range 12).foldl
                            (fun l i => l.set i (inode.blocks.getD i 0))
                            (fs2.inodes idx).direct_blocks } }
          (none, fs3, some inode)

/-- C5: evaluating `mkdir` at a well-formed call — fresh 16-block volume,
32-character name, target index 2, parent 1 (the root directory, which
has all 12 slots empty) and no caller-supplied slot — does not write the
new index into the lowest empty slot as claimed: the `TInode`
construction underneath raises `AttributeError` (the `num_block` typo on
wrappers.py line 116) before the slot scan is reached, and the state is
returned unchanged. -/
theorem mkdir_attribute_error_before_slot_scan :
    mkdir (fsCreate 16) "dir2                            " 2 1 none =
      (some (MkdirErr.initAssert InitErr.attributeError), fsCreate 16, none) := rfl

/-- C6: no `mkdir` call initializes the new inode's direct pointers —
evaluating `mkdir` at a well-formed call for index 3 shows the operation
aborting with the constructor's `AttributeError` and leaving the target
inode exactly as the volume placeholder created it; moreover the model
block list that `mkdir` would have copied is the constructor default
`[0] * 12`, not the all-sentinel list the claim requires. -/
theorem mkdir_never_initializes_child_slots :
    mkdir (fsCreate 16) "dir3                            " 3 1 none =
        (some (MkdirErr.initAssert InitErr.attributeError), fsCreate 16, none) ∧
      ((fsCreate 16).inodes 3).direct_blocks = List.replicate 12 (-1) ∧
      List.replicate 12 (0 : Int) ++
          List.replicate (12 - (List.replicate 12 (0 : Int)).length) (-1) ≠
        List.replicate 12 (-1) :=
  ⟨rfl, rfl, by decide⟩

/-- C7: no consistency check on a freshly mkdir-created inode can occur,
because `mkdir` never creates one: at a well-formed call for index 4 the
operation aborts with the constructor's `AttributeError`, returns no
`TInode` model and leaves the state unchanged. -/
theorem mkdir_produces_no_inode_to_check :
    (mkdir (fsCreate 16) "dir4                            " 4 1 none).2.2 = none ∧
      (mkdir (fsCreate 16) "dir4                            " 4 1 none).1 =
        some (MkdirErr.initAssert InitErr.attributeError) ∧
      (mkdir (fsCreate 16) "dir4                            " 4 1 none).2.1 =
        fsCreate 16 :=
  ⟨rfl, rfl, rfl⟩

/-- C9: the constructor's two precondition failures behave as claimed —
a name that is not exactly 32 characters fails first, and a parent whose
stored type is not directory fails the type assert — but the success
clause is false: with both preconditions satisfied (32-character name,
in-range directory parent) and the positive index 2 that `mkdir`
supplies, construction still fails, with `AttributeError` from the
`num_block` typo on wrappers.py line 116 instead of succeeding. -/
theorem tinode_init_eval :
    TInode.init (fsCreate 16) "short" 2 1 none (List.replicate 12 0) =
        Except.error InitErr.nameLength ∧
      TInode.init (fsCreate 16) "dir5                            " 2 5 none
          (List.replicate 12 0) =
        Except.error InitErr.parentType ∧
      TInode.init (fsCreate 16) "dir5                            " 2 1 (some 2)
          (List.replicate 12 0) =
        Except.error InitErr.attributeError :=
  ⟨rfl, rfl, rfl⟩

/-- A concrete state exercising `TInode.check`: inode 1 (root directory)
holds child 2 in slot 0; inode 2 holds child 3 in slot 0 and sentinels
elsewhere; inode 3 links back to parent 2; every other table position —
index -1 included, which the check dereferences for sentinel slots —
holds the unallocated placeholder with parent 0. -/
def chainFS : FileSystem where
  s_block := ⟨16, 16⟩
  free_list := fun i => if 0 ≤ i ∧ i < 16 then 1 else 0
  inodes := fun i =>
    if i = 1 then
      ⟨2, 0, "root                            ", 2 :: List.replicate 11 (-1), 0⟩
    else if i = 2 then
      ⟨2, 0, "dir2                            ", 3 :: List.replicate 11 (-1), 1⟩
    else if i = 3 then
      ⟨2, 0, "dir3                            ", List.replicate 12 (-1), 2⟩
    else ⟨3, 0, "", List.replicate 12 (-1), 0⟩
  data_blocks := fun _ => ⟨0, List.replicate 1024 0⟩
  root_node := 1

/-- The expected model matching inode 2 of `chainFS`. -/
def chainModel : TInode :=
  ⟨some 2, "dir2                            ", 2, 1, 3 :: List.replicate 11 (-1)⟩

/-- Counterexample to C8 as stated: in `chainFS`, every non-empty slot of
inode 2 references an inode whose parent is 2, the model matches the
stored name, type, parent and block list position by position, and the
index occurs in its parent's slots — yet the check with parent
verification enabled fails, because it also dereferences the eleven
empty-slot sentinels as inode index -1 and requires parent 2 there. -/
theorem check_fails_despite_correct_nonempty_links :
    (∀ d : Nat, d < 12 → (chainFS.inodes 2).direct_blocks.getD d 0 ≠ -1 →
        (chainFS.inodes ((chainFS.inodes 2).direct_blocks.getD d 0)).parent = 2) ∧
      ((chainFS.inodes 1).direct_blocks.getD 0 0 = 2) ∧
      (chainFS.inodes 2).name = chainModel.name ∧
      (chainFS.inodes 2).n_type = chainModel.n_type ∧
      (chainFS.inodes 2).parent = chainModel.parent ∧
      (∀ i : Nat, i < 12 →
        (chainFS.inodes 2).direct_blocks.getD i 0 = chainModel.blocks.getD i 0) ∧
      TInode.check chainModel chainFS none true = false := by
  refine ⟨by decide, by decide, by decide, by decide, by decide, by decide, by decide⟩

/-- C8 (amended): with parent verification enabled, a successful check
requires every one of the 12 direct-block slots — the empty-slot
sentinels included, dereferenced at table index -1 — to reference an
entry whose parent equals the checked index, not only the non-empty
slots; with verification disabled the check is exactly the range,
attribute and positional-equality steps, with no parent-link condition. -/
theorem check_parent_mode (t : TInode) (fs : FileSystem) (idx : Option Int)
    (e : Int) (he : t.idx.orElse (fun _ => idx) = some e) :
    (TInode.check t fs idx true = true →
      ∀ d : Nat, d < 12 →
        (fs.inodes ((fs.inodes e).direct_blocks.getD d 0)).parent = e) ∧
      (TInode.check t fs idx false = true ↔
        (0 < e ∧ e < (fs.s_block.num_blocks : Int) ∧
          (fs.inodes e).name = t.name ∧ (fs.inodes e).n_type = t.n_type ∧
          (fs.inodes e).parent = t.parent ∧
          ∀ i : Nat, i < 12 →
            (fs.inodes e).direct_blocks.getD i 0 = t.blocks.getD i 0)) := by
  unfold TInode.check
  rw [he]
  constructor
  · intro h d hd
    simp only [Bool.and_eq_true, List.all_eq_true, List.any_eq_true, List.mem_range,
      beq_iff_eq, decide_eq_true_eq, Bool.not_true, Bool.false_or] at h
    exact h.1.2.2 d hd
  · simp only [Bool.and_eq_true, List.all_eq_true, List.mem_range, beq_iff_eq,
      decide_eq_true_eq, Bool.not_false, Bool.true_or, Bool.true_and]
    tauto

/-- Concrete instance of the amended C8: with parent verification
disabled, checking the root model against a fresh 16-block volume
succeeds on the range, attribute and positional steps alone — although
its parent 0's slots nowhere contain 1, which enabled verification would
demand. -/
theorem check_parent_mode_witness :
    TInode.check ⟨some 1, "", 2, 0, List.replicate 12 (-1)⟩ (fsCreate 16) none false
      = true :=
  ((check_parent_mode ⟨some 1, "", 2, 0, List.replicate 12 (-1)⟩ (fsCreate 16) none 1
      rfl).2).mpr
    ⟨by decide, by decide, by decide, by decide, by decide, by decide⟩
